import Mathlib

/-!
Verification of the spillable-buffer subsystem (`SpillableBuffer` in the
Cython source).  We give a shallow embedding of the buffer state and of the
operations the specification talks about, and prove the spec's testable
properties against it.

Modelling decisions, faithful to the source:

* A base buffer's mutable state (`BaseState`) carries the pointer
  descriptor (`_ptr_desc`: device-resident with the bytes of the owned
  device allocation, or host-resident with the owned memoryview), the raw
  device address `_ptr`, `_size`, the `_exposed` latch, the expose
  counter's use count (`_expose_counter.use_count()`, which is 1 when no
  pin token is alive), and `_last_accessed`.
* Views are flattened at creation (`create_view`): a view holds only an
  absolute offset into the ultimate base plus its own size, exactly as the
  source stores `view_desc = (base, base_offset + offset)`.  Since every
  view references the one ultimate base, a `Buffer` is either `base` or
  `view offset size` interpreted against a single `BaseState`.
* The spill manager is an external collaborator, out of scope per the
  spec; `spill_to_device_limit` and the address-range lookup are modelled
  as not affecting the buffer under consideration.  It never touches
  `_exposed` or the expose counter.
* `time.monotonic()` readings and fresh device addresses produced by the
  allocator are passed in as explicit `now` / `freshPtr` arguments.
* Python exceptions become `Except SpillError`; each `ValueError` raised
  by the source is mapped to the spec's error name for that site.
-/

set_option maxHeartbeats 1000000

namespace SpillBuf

/-- Errors raised by the source, named as in the spec's error taxonomy. -/
inductive SpillError where
  | invalidSource
  | invalidLayout
  | unspillable
  | unknownTarget
  | invalidArgument
  | frameCountMismatch
  | assertionFailed
deriving Repr, DecidableEq

/-- `_ptr_desc`: either device-resident (`type == "gpu"`, carrying the bytes
of the owned device allocation at address `_ptr`) or host-resident
(`type == "cpu"`, carrying the owned memoryview). -/
inductive PtrDesc where
  | gpu (devMem : List Nat)
  | cpu (memview : List Nat)
deriving Repr, DecidableEq

/-- The mutable state of a base `SpillableBuffer`. -/
structure BaseState where
  ptrDesc : PtrDesc
  ptr : Nat
  size : Nat
  exposed : Bool
  useCount : Nat
  lastAccessed : Nat
deriving Repr, DecidableEq

/-- `self._ptr_desc["type"]`. -/
def BaseState.ptrType (s : BaseState) : String :=
  match s.ptrDesc with
  | .gpu _ => "gpu"
  | .cpu _ => "cpu"

/-- The bytes currently backing the buffer, wherever they reside. -/
def BaseState.contents (s : BaseState) : List Nat :=
  match s.ptrDesc with
  | .gpu m => m
  | .cpu m => m

/-- `SpillableBuffer.spillable` on a base:
`not self._exposed and self._expose_counter.use_count() == 1`. -/
def BaseState.spillable (s : BaseState) : Bool :=
  !s.exposed && s.useCount == 1

/-- Number of live pin tokens: expose-counter use count minus one. -/
def pinCount (s : BaseState) : Nat :=
  s.useCount - 1

/-- A buffer handle: the base itself, or a view with its (already
flattened) absolute offset into the base and its own size. -/
inductive Buffer where
  | base
  | view (offset : Nat) (vsize : Nat)
deriving Repr, DecidableEq

/-- Absolute offset of a handle into the base (0 for the base itself). -/
def Buffer.offsetOf : Buffer → Nat
  | .base => 0
  | .view o _ => o

/-- `self.size` of a handle (a view stores its own size). -/
def bufSize (b : Buffer) (s : BaseState) : Nat :=
  match b with
  | .base => s.size
  | .view _ sz => sz

/-- The bytes a handle denotes: the base's bytes, or the view's window. -/
def bufContents (b : Buffer) (s : BaseState) : List Nat :=
  match b with
  | .base => s.contents
  | .view o sz => (s.contents.drop o).take sz

/-- `SpillableBuffer.exposed`: a view delegates to its base. -/
def exposedQ (b : Buffer) (s : BaseState) : Bool :=
  match b with
  | .base => s.exposed
  | .view _ _ => s.exposed

/-- `SpillableBuffer.spillable`: a view delegates to its base. -/
def spillableQ (b : Buffer) (s : BaseState) : Bool :=
  match b with
  | .base => s.spillable
  | .view _ _ => s.spillable

/-- `SpillableBuffer.is_spilled`: a view delegates to its base;
a base is spilled iff `_ptr_desc["type"] != "gpu"`. -/
def is_spilled (b : Buffer) (s : BaseState) : Bool :=
  match b with
  | .base => s.ptrType ≠ "gpu"
  | .view _ _ => s.ptrType ≠ "gpu"

/-- `SpillableBuffer.move_inplace(target)` on a base buffer.
`freshPtr` is the address of the device allocation made by
`rmm.DeviceBuffer.to_device` on the host-to-device path. -/
def move_inplace (s : BaseState) (target : String) (freshPtr : Nat) :
    Except SpillError BaseState :=
  if s.ptrType = target then
    .ok s
  else if !s.spillable then
    .error .unspillable
  else
    match s.ptrDesc, target with
    | .gpu devMem, "cpu" =>
        .ok { s with ptrDesc := .cpu devMem, ptr := 0 }
    | .cpu memview, "gpu" =>
        .ok { s with ptrDesc := .gpu memview, ptr := freshPtr,
                     size := memview.length }
    | _, _ => .error .unknownTarget

/-- The `ptr` property: resolve a view to base plus offset, force device
residency, latch `_exposed`, refresh `_last_accessed`, return the address.
The manager's `spill_to_device_limit()` call is an external-collaborator
effect that does not change this buffer's state. -/
def ptrAccess (b : Buffer) (s : BaseState) (now freshPtr : Nat) :
    Except SpillError (Nat × BaseState) :=
  match move_inplace s "gpu" freshPtr with
  | .error e => .error e
  | .ok s1 =>
      let s2 := { s1 with exposed := true, lastAccessed := now }
      .ok (s2.ptr + b.offsetOf, s2)

/-- `ptr_raw(owners)`: resolve to base plus offset, force device residency,
refresh `_last_accessed`, push a copy of the expose counter onto the
caller's owners vector (use count + 1), return the absolute address. -/
def ptr_raw (b : Buffer) (s : BaseState) (now freshPtr : Nat) :
    Except SpillError (Nat × BaseState) :=
  match move_inplace s "gpu" freshPtr with
  | .error e => .error e
  | .ok s1 =>
      let s2 := { s1 with lastAccessed := now, useCount := s1.useCount + 1 }
      .ok (s2.ptr + b.offsetOf, s2)

/-- Destruction of one live pin token: the owners vector drops its copy of
the expose counter, decrementing the use count.  A live token exists only
while the use count is at least 2. -/
def releasePin (s : BaseState) : BaseState :=
  if 2 ≤ s.useCount then { s with useCount := s.useCount - 1 } else s

/-- `SpillableBuffer.memoryview()`: if the base is spillable, move it to
host in place and return a zero-copy slice of the host storage; otherwise
(exposed or pinned) leave the base alone and copy the window
`[offset, offset+size)` down from device.  The source's
`assert base._ptr_desc["type"] == "gpu"` in the second branch is modelled
as an assertion error. -/
def memoryview (b : Buffer) (s : BaseState) :
    Except SpillError (List Nat × BaseState) :=
  let offset := b.offsetOf
  let sz := bufSize b s
  if s.spillable then
    match move_inplace s "cpu" 0 with
    | .error e => .error e
    | .ok s1 => .ok ((s1.contents.drop offset).take sz, s1)
  else
    match s.ptrDesc with
    | .gpu devMem => .ok ((devMem.drop offset).take sz, s)
    | .cpu _ => .error .assertionFailed

/-- `create_view(buffer, size, offset)`: reject negative size, flatten a
view-of-view to the ultimate base with accumulated offset. -/
def create_view (buffer : Buffer) (size offset : Int) :
    Except SpillError Buffer :=
  if size < 0 then .error .invalidArgument
  else .ok (.view ((buffer.offsetOf : Int) + offset).toNat size.toNat)

/-- One bound of `slice.indices(length)` for a positive step: negative
indices count from the end, then the result is clamped to `[0, length]`. -/
def clampIndex (i : Int) (len : Nat) : Int :=
  let j := if i < 0 then i + len else i
  if j < 0 then 0 else if j > len then len else j

/-- `SpillableBuffer.__getitem__(key)` for `key = slice(start, stop, step)`:
normalise the bounds against `self.size`, reject a non-unit step, and build
the (flattened) view of size `stop - start` at offset `start`. -/
def getitem (b : Buffer) (s : BaseState) (start stop step : Int) :
    Except SpillError Buffer :=
  if step ≠ 1 then .error .invalidArgument
  else
    let sz := bufSize b s
    let start1 := clampIndex start sz
    let stop1 := clampIndex stop sz
    create_view b (stop1 - start1) start1

/-- What `__init__` may receive as `data`. -/
inductive DataSource where
  | fromSpillable
  | deviceBuffer (ptr : Nat) (mem : List Nat)
  | cudaArrayInterface (ptr : Nat) (mem : List Nat)
  | host (mem : List Nat) (cContiguous : Bool)
deriving Repr, DecidableEq

/-- `SpillableBuffer.__init__(data, exposed, manager)` for a base buffer.
Device sources are captured without a copy; a host source with
`exposed = True` is eagerly copied to a fresh device allocation (via a
contiguous `numpy.array` copy, so contiguity of the source is irrelevant)
and the new buffer's `_exposed` is forced to `False`; a host source with
`exposed = False` must be C-contiguous and is wrapped as already spilled.
The manager registration and `spill_to_device_limit` calls at the end are
external-collaborator effects not changing this buffer's state. -/
def init (data : DataSource) (exposed : Bool) (freshPtr now : Nat) :
    Except SpillError BaseState :=
  match data with
  | .fromSpillable => .error .invalidSource
  | .deviceBuffer p m =>
      .ok { ptrDesc := .gpu m, ptr := p, size := m.length,
            exposed := exposed, useCount := 1, lastAccessed := now }
  | .cudaArrayInterface p m =>
      .ok { ptrDesc := .gpu m, ptr := p, size := m.length,
            exposed := exposed, useCount := 1, lastAccessed := now }
  | .host m contig =>
      if exposed then
        .ok { ptrDesc := .gpu m, ptr := freshPtr, size := m.length,
              exposed := false, useCount := 1, lastAccessed := now }
      else if contig then
        .ok { ptrDesc := .cpu m, ptr := 0, size := m.length,
              exposed := false, useCount := 1, lastAccessed := now }
      else .error .invalidLayout

/-- A serialization frame: either the buffer handle itself (device-resident
zero-copy path) or a host memoryview of the bytes. -/
inductive Frame where
  | spillableBuf (b : Buffer) (s : BaseState)
  | hostBytes (mv : List Nat)
deriving Repr, DecidableEq

/-- `SpillableBuffer.serialize()`: header records `frame_count = 1`; a
spilled buffer ships a host memoryview, otherwise the handle itself. -/
def serialize (b : Buffer) (s : BaseState) :
    Except SpillError (Nat × List Frame × BaseState) :=
  if is_spilled b s then
    match memoryview b s with
    | .error e => .error e
    | .ok (mv, s1) => .ok (1, [.hostBytes mv], s1)
  else
    .ok (1, [.spillableBuf b s], s)

/-- `SpillableBuffer.deserialize(header, frames)`: reject a frame count
other than one, reuse a `SpillableBuffer` frame as-is, otherwise construct
a new unexposed buffer from the host frame. -/
def deserialize (frameCount : Nat) (frames : List Frame) :
    Except SpillError (Buffer × BaseState) :=
  if frameCount ≠ 1 then .error .frameCountMismatch
  else
    match frames with
    | [.spillableBuf b s] => .ok (b, s)
    | [.hostBytes mv] =>
        match init (.host mv true) false 0 0 with
        | .error e => .error e
        | .ok s => .ok (.base, s)
    | _ => .error .frameCountMismatch

/-- One observable operation on a buffer, for the temporal claims.  `Op`
covers every state-changing entry point of the source: residency moves,
permanent exposure (`ptr`), transient pinning (`ptr_raw`), pin-token
release, slicing, host materialization, and serialization. -/
inductive Op where
  | move (target : String) (freshPtr : Nat)
  | getPtr (b : Buffer) (now freshPtr : Nat)
  | pinPtr (b : Buffer) (now freshPtr : Nat)
  | dropToken
  | hostCopy (b : Buffer)
  | serializeOp (b : Buffer)
  | sliceOp (b : Buffer) (start stop step : Int)

/-- Effect of one operation on the base state.  A raised error leaves the
state untouched (every raise in the source happens before any mutation);
slicing allocates a fresh view handle and never touches the base state. -/
def applyOp (op : Op) (s : BaseState) : BaseState :=
  match op with
  | .move t f =>
      match move_inplace s t f with
      | .ok s1 => s1
      | .error _ => s
  | .getPtr b n f =>
      match ptrAccess b s n f with
      | .ok r => r.2
      | .error _ => s
  | .pinPtr b n f =>
      match ptr_raw b s n f with
      | .ok r => r.2
      | .error _ => s
  | .dropToken => releasePin s
  | .hostCopy b =>
      match memoryview b s with
      | .ok r => r.2
      | .error _ => s
  | .serializeOp b =>
      match serialize b s with
      | .ok r => r.2.2
      | .error _ => s
  | .sliceOp _ _ _ _ => s

/-- Effect of a sequence of operations, oldest first. -/
def applyOps (ops : List Op) (s : BaseState) : BaseState :=
  ops.foldl (fun s op => applyOp op s) s

/-- A device-resident unexposed, unpinned sample base buffer. -/
def sampleDev : BaseState :=
  { ptrDesc := .gpu [1, 2, 3, 4], ptr := 100, size := 4,
    exposed := false, useCount := 1, lastAccessed := 0 }

/-- A host-resident (spilled) unexposed, unpinned sample base buffer. -/
def sampleHost : BaseState :=
  { ptrDesc := .cpu [5, 6, 7], ptr := 0, size := 3,
    exposed := false, useCount := 1, lastAccessed := 0 }

/-- A 1024-byte device-resident sample base buffer. -/
def sampleBufA : BaseState :=
  { ptrDesc := .gpu (List.replicate 1024 37), ptr := 4096, size := 1024,
    exposed := false, useCount := 1, lastAccessed := 0 }

/-- A device-resident sample base buffer that has been exposed. -/
def sampleExposedDev : BaseState :=
  { ptrDesc := .gpu [1, 2, 3, 4], ptr := 100, size := 4,
    exposed := true, useCount := 1, lastAccessed := 0 }

/-- The state of `sampleHost` after one `ptr_raw` call at time 7 with a
fresh device allocation at address 200. -/
def samplePinned : BaseState :=
  { ptrDesc := .gpu [5, 6, 7], ptr := 200, size := 3,
    exposed := false, useCount := 2, lastAccessed := 7 }

/-- The state of `sampleHost` after one `ptr` access at time 7 with a
fresh device allocation at address 200. -/
def sampleMovedExposed : BaseState :=
  { ptrDesc := .gpu [5, 6, 7], ptr := 200, size := 3,
    exposed := true, useCount := 1, lastAccessed := 7 }

theorem exposedQ_eq (b : Buffer) (s : BaseState) : exposedQ b s = s.exposed := by
  cases b <;> rfl

theorem spillableQ_eq (b : Buffer) (s : BaseState) :
    spillableQ b s = s.spillable := by
  cases b <;> rfl

theorem is_spilled_eq (b : Buffer) (s : BaseState) :
    is_spilled b s = decide (s.ptrType ≠ "gpu") := by
  cases b <;> rfl

theorem move_inplace_ok_fields (s : BaseState) (t : String) (f : Nat)
    (s1 : BaseState) (h : move_inplace s t f = .ok s1) :
    s1.exposed = s.exposed ∧ s1.useCount = s.useCount ∧
    s1.lastAccessed = s.lastAccessed ∧ s1.contents = s.contents := by
  unfold move_inplace at h
  split at h
  · cases h
    exact ⟨rfl, rfl, rfl, rfl⟩
  · split at h
    · cases h
    · split at h
      · next devMem _ _ =>
          cases h
          exact ⟨rfl, rfl, rfl, by simp [BaseState.contents, *]⟩
      · next memview _ _ =>
          cases h
          exact ⟨rfl, rfl, rfl, by simp [BaseState.contents, *]⟩
      · cases h

theorem move_inplace_ok_ptrType (s : BaseState) (t : String) (f : Nat)
    (s1 : BaseState) (h : move_inplace s t f = .ok s1) : s1.ptrType = t := by
  unfold move_inplace at h
  split at h
  · next hc =>
      cases h
      exact hc
  · split at h
    · cases h
    · split at h
      · next devMem heq =>
          cases h
          simp_all [BaseState.ptrType]
      · next memview heq =>
          cases h
          simp_all [BaseState.ptrType]
      · cases h

theorem is_spilled_false_of_gpu (b : Buffer) (s : BaseState)
    (h : s.ptrType = "gpu") : is_spilled b s = false := by
  rw [is_spilled_eq, h]
  rfl

theorem move_inplace_unspillable (s : BaseState) (t : String) (f : Nat)
    (h1 : s.spillable = false) (h2 : s.ptrType ≠ t) :
    move_inplace s t f = .error .unspillable := by
  unfold move_inplace
  rw [if_neg h2, if_pos]
  rw [h1]
  rfl

theorem move_inplace_unspillable_ok (s : BaseState) (t : String) (f : Nat)
    (s1 : BaseState) (h1 : s.spillable = false)
    (h : move_inplace s t f = .ok s1) : s1 = s := by
  unfold move_inplace at h
  split at h
  · cases h
    rfl
  · rw [h1] at h
    cases h

theorem ptrAccess_ok (b : Buffer) (s : BaseState) (now f : Nat)
    (r : Nat × BaseState) (h : ptrAccess b s now f = .ok r) :
    ∃ s1, move_inplace s "gpu" f = .ok s1 ∧
      r = (s1.ptr + b.offsetOf,
           { s1 with exposed := true, lastAccessed := now }) := by
  unfold ptrAccess at h
  cases hm : move_inplace s "gpu" f with
  | error e =>
      rw [hm] at h
      cases h
  | ok s1 =>
      rw [hm] at h
      cases h
      exact ⟨s1, rfl, rfl⟩

theorem ptr_raw_ok (b : Buffer) (s : BaseState) (now f : Nat)
    (r : Nat × BaseState) (h : ptr_raw b s now f = .ok r) :
    ∃ s1, move_inplace s "gpu" f = .ok s1 ∧
      r = (s1.ptr + b.offsetOf,
           { s1 with lastAccessed := now, useCount := s1.useCount + 1 }) := by
  unfold ptr_raw at h
  cases hm : move_inplace s "gpu" f with
  | error e =>
      rw [hm] at h
      cases h
  | ok s1 =>
      rw [hm] at h
      cases h
      exact ⟨s1, rfl, rfl⟩

theorem memoryview_ok_state (b : Buffer) (s : BaseState) (mv : List Nat)
    (s1 : BaseState) (h : memoryview b s = .ok (mv, s1)) :
    move_inplace s "cpu" 0 = .ok s1 ∨ s1 = s := by
  unfold memoryview at h
  split at h
  · cases hm : move_inplace s "cpu" 0 with
    | error e =>
        rw [hm] at h
        cases h
    | ok s2 =>
        rw [hm] at h
        injection h with h'
        have h2 : s2 = s1 := congrArg Prod.snd h'
        rw [← h2]
        exact .inl rfl
  · split at h
    · cases h
      exact .inr rfl
    · cases h

theorem memoryview_unspillable_state (b : Buffer) (s : BaseState)
    (mv : List Nat) (s1 : BaseState) (h1 : s.spillable = false)
    (h : memoryview b s = .ok (mv, s1)) : s1 = s := by
  rcases memoryview_ok_state b s mv s1 h with hm | hs
  · exact move_inplace_unspillable_ok s "cpu" 0 s1 h1 hm
  · exact hs

theorem serialize_ok_state (b : Buffer) (s : BaseState) (n : Nat)
    (fr : List Frame) (s1 : BaseState)
    (h : serialize b s = .ok (n, fr, s1)) :
    (∃ mv, memoryview b s = .ok (mv, s1)) ∨ s1 = s := by
  unfold serialize at h
  split at h
  · cases hm : memoryview b s with
    | error e =>
        rw [hm] at h
        cases h
    | ok p =>
        obtain ⟨mv, s2⟩ := p
        rw [hm] at h
        cases h
        exact .inl ⟨mv, by simp [hm]⟩
  · cases h
    exact .inr rfl

theorem exposed_not_spillable (s : BaseState) (h : s.exposed = true) :
    s.spillable = false := by
  simp [BaseState.spillable, h]

theorem applyOp_useCount_ge (op : Op) (s : BaseState) (h : 1 ≤ s.useCount) :
    1 ≤ (applyOp op s).useCount := by
  cases op with
  | move t f =>
      simp only [applyOp]
      cases hm : move_inplace s t f with
      | error e => exact h
      | ok s1 =>
          have hu := (move_inplace_ok_fields s t f s1 hm).2.1
          show 1 ≤ s1.useCount
          omega
  | getPtr b n f =>
      simp only [applyOp]
      cases hm : ptrAccess b s n f with
      | error e => exact h
      | ok r =>
          obtain ⟨s1, hmv, hr⟩ := ptrAccess_ok b s n f r hm
          have hu := (move_inplace_ok_fields s "gpu" f s1 hmv).2.1
          rw [hr]
          show 1 ≤ s1.useCount
          omega
  | pinPtr b n f =>
      simp only [applyOp]
      cases hm : ptr_raw b s n f with
      | error e => exact h
      | ok r =>
          obtain ⟨s1, hmv, hr⟩ := ptr_raw_ok b s n f r hm
          rw [hr]
          show 1 ≤ s1.useCount + 1
          omega
  | dropToken =>
      simp only [applyOp, releasePin]
      split
      · next h2 =>
          show 1 ≤ s.useCount - 1
          omega
      · exact h
  | hostCopy b =>
      simp only [applyOp]
      cases hm : memoryview b s with
      | error e => exact h
      | ok r =>
          rcases memoryview_ok_state b s r.1 r.2 hm with hmv | hs
          · have hu := (move_inplace_ok_fields s "cpu" 0 r.2 hmv).2.1
            show 1 ≤ r.2.useCount
            omega
          · show 1 ≤ r.2.useCount
            rw [hs]
            exact h
  | serializeOp b =>
      simp only [applyOp]
      cases hm : serialize b s with
      | error e => exact h
      | ok r =>
          rcases serialize_ok_state b s r.1 r.2.1 r.2.2 hm with ⟨mv, hmv⟩ | hs
          · rcases memoryview_ok_state b s mv r.2.2 hmv with hmove | hs2
            · have hu := (move_inplace_ok_fields s "cpu" 0 r.2.2 hmove).2.1
              show 1 ≤ r.2.2.useCount
              omega
            · show 1 ≤ r.2.2.useCount
              rw [hs2]
              exact h
          · show 1 ≤ r.2.2.useCount
            rw [hs]
            exact h
  | sliceOp b st sp sk => exact h

theorem applyOp_exposed_mono (op : Op) (s : BaseState) (h : s.exposed = true) :
    (applyOp op s).exposed = true := by
  cases op with
  | move t f =>
      simp only [applyOp]
      cases hm : move_inplace s t f with
      | error e => exact h
      | ok s1 =>
          have he := (move_inplace_ok_fields s t f s1 hm).1
          show s1.exposed = true
          rw [he, h]
  | getPtr b n f =>
      simp only [applyOp]
      cases hm : ptrAccess b s n f with
      | error e => exact h
      | ok r =>
          obtain ⟨s1, hmv, hr⟩ := ptrAccess_ok b s n f r hm
          rw [hr]
  | pinPtr b n f =>
      simp only [applyOp]
      cases hm : ptr_raw b s n f with
      | error e => exact h
      | ok r =>
          obtain ⟨s1, hmv, hr⟩ := ptr_raw_ok b s n f r hm
          have he := (move_inplace_ok_fields s "gpu" f s1 hmv).1
          rw [hr]
          show s1.exposed = true
          rw [he, h]
  | dropToken =>
      simp only [applyOp, releasePin]
      split
      · exact h
      · exact h
  | hostCopy b =>
      simp only [applyOp]
      cases hm : memoryview b s with
      | error e => exact h
      | ok r =>
          have hs2 := memoryview_unspillable_state b s r.1 r.2
            (exposed_not_spillable s h) hm
          show r.2.exposed = true
          rw [hs2]
          exact h
  | serializeOp b =>
      simp only [applyOp]
      cases hm : serialize b s with
      | error e => exact h
      | ok r =>
          rcases serialize_ok_state b s r.1 r.2.1 r.2.2 hm with ⟨mv, hmv⟩ | hs
          · have hs2 := memoryview_unspillable_state b s mv r.2.2
              (exposed_not_spillable s h) hmv
            show r.2.2.exposed = true
            rw [hs2]
            exact h
          · show r.2.2.exposed = true
            rw [hs]
            exact h
  | sliceOp b st sp sk => exact h

theorem applyOp_exposed_gpu (op : Op) (s : BaseState)
    (hInv : s.exposed = true → s.ptrType = "gpu") :
    (applyOp op s).exposed = true → (applyOp op s).ptrType = "gpu" := by
  cases op with
  | move t f =>
      simp only [applyOp]
      cases hm : move_inplace s t f with
      | error e => exact hInv
      | ok s1 =>
          intro he1
          have he := (move_inplace_ok_fields s t f s1 hm).1
          have hse : s.exposed = true := by rw [← he]; exact he1
          have h2 := move_inplace_unspillable_ok s t f s1
            (exposed_not_spillable s hse) hm
          show s1.ptrType = "gpu"
          rw [h2]
          exact hInv hse
  | getPtr b n f =>
      simp only [applyOp]
      cases hm : ptrAccess b s n f with
      | error e => exact hInv
      | ok r =>
          intro _
          obtain ⟨s1, hmv, hr⟩ := ptrAccess_ok b s n f r hm
          rw [hr]
          show s1.ptrType = "gpu"
          exact move_inplace_ok_ptrType s "gpu" f s1 hmv
  | pinPtr b n f =>
      simp only [applyOp]
      cases hm : ptr_raw b s n f with
      | error e => exact hInv
      | ok r =>
          intro _
          obtain ⟨s1, hmv, hr⟩ := ptr_raw_ok b s n f r hm
          rw [hr]
          show s1.ptrType = "gpu"
          exact move_inplace_ok_ptrType s "gpu" f s1 hmv
  | dropToken =>
      simp only [applyOp, releasePin]
      split
      · exact hInv
      · exact hInv
  | hostCopy b =>
      simp only [applyOp]
      cases hm : memoryview b s with
      | error e => exact hInv
      | ok r =>
          intro he1
          rcases memoryview_ok_state b s r.1 r.2 hm with hmv | hs
          · have he := (move_inplace_ok_fields s "cpu" 0 r.2 hmv).1
            have hse : s.exposed = true := by rw [← he]; exact he1
            have h2 := move_inplace_unspillable_ok s "cpu" 0 r.2
              (exposed_not_spillable s hse) hmv
            show r.2.ptrType = "gpu"
            rw [h2]
            exact hInv hse
          · have he1' : r.2.exposed = true := he1
            show r.2.ptrType = "gpu"
            rw [hs]
            exact hInv (by rw [← hs]; exact he1')
  | serializeOp b =>
      simp only [applyOp]
      cases hm : serialize b s with
      | error e => exact hInv
      | ok r =>
          intro he1
          rcases serialize_ok_state b s r.1 r.2.1 r.2.2 hm with ⟨mv, hmv⟩ | hs
          · rcases memoryview_ok_state b s mv r.2.2 hmv with hmove | hs2
            · have he := (move_inplace_ok_fields s "cpu" 0 r.2.2 hmove).1
              have hse : s.exposed = true := by rw [← he]; exact he1
              show r.2.2.ptrType = "gpu"
              rw [move_inplace_unspillable_ok s "cpu" 0 r.2.2
                (exposed_not_spillable s hse) hmove]
              exact hInv hse
            · have he1' : r.2.2.exposed = true := he1
              show r.2.2.ptrType = "gpu"
              rw [hs2]
              exact hInv (by rw [← hs2]; exact he1')
          · have he1' : r.2.2.exposed = true := he1
            show r.2.2.ptrType = "gpu"
            rw [hs]
            exact hInv (by rw [← hs]; exact he1')
  | sliceOp b st sp sk => exact hInv

theorem applyOps_pred (P : BaseState → Prop)
    (hP : ∀ op s, P s → P (applyOp op s)) :
    ∀ (ops : List Op) (s : BaseState), P s → P (applyOps ops s) := by
  intro ops
  induction ops with
  | nil =>
      intro s h
      exact h
  | cons op rest ih =>
      intro s h
      exact ih _ (hP op s h)

theorem init_useCount (data : DataSource) (e : Bool) (fp now : Nat)
    (s0 : BaseState) (h : init data e fp now = .ok s0) : s0.useCount = 1 := by
  cases data with
  | fromSpillable =>
      simp only [init] at h
      cases h
  | deviceBuffer p m =>
      simp only [init] at h
      cases h
      rfl
  | cudaArrayInterface p m =>
      simp only [init] at h
      cases h
      rfl
  | host m contig =>
      simp only [init] at h
      split at h
      · cases h
        rfl
      · split at h
        · cases h
          rfl
        · cases h

theorem init_exposed_gpu (data : DataSource) (e : Bool) (fp now : Nat)
    (s0 : BaseState) (h : init data e fp now = .ok s0) :
    s0.exposed = true → s0.ptrType = "gpu" := by
  cases data with
  | fromSpillable =>
      simp only [init] at h
      cases h
  | deviceBuffer p m =>
      simp only [init] at h
      cases h
      intro _
      rfl
  | cudaArrayInterface p m =>
      simp only [init] at h
      cases h
      intro _
      rfl
  | host m contig =>
      simp only [init] at h
      split at h
      · cases h
        intro _
        rfl
      · split at h
        · cases h
          intro hc
          cases hc
        · cases h

/-- Claim C1: for every buffer (base or view) over a base constructed by
`__init__` and mutated by any sequence of operations, the spillability
query returns true iff the base is not exposed and its pin count
(expose-counter use count minus one) is zero; the equivalence holds
immediately after any operation that can change either operand. -/
theorem C1_spillable_iff (b : Buffer) (data : DataSource) (e : Bool)
    (fp now : Nat) (s0 : BaseState) (h0 : init data e fp now = .ok s0)
    (ops : List Op) :
    spillableQ b (applyOps ops s0) = true ↔
      (exposedQ b (applyOps ops s0) = false ∧
       pinCount (applyOps ops s0) = 0) := by
  have hu : 1 ≤ (applyOps ops s0).useCount := by
    have h1 : s0.useCount = 1 := init_useCount data e fp now s0 h0
    exact applyOps_pred (fun st => 1 ≤ st.useCount) applyOp_useCount_ge
      ops s0 (by omega)
  rw [spillableQ_eq, exposedQ_eq]
  simp only [BaseState.spillable, pinCount, Bool.and_eq_true,
    Bool.not_eq_true', beq_iff_eq]
  constructor
  · rintro ⟨h1, h2⟩
    exact ⟨h1, by omega⟩
  · rintro ⟨h1, h2⟩
    exact ⟨h1, by omega⟩

theorem C1_witness :
    spillableQ .base (applyOps [.pinPtr .base 5 7] sampleDev) = true ↔
      (exposedQ .base (applyOps [.pinPtr .base 5 7] sampleDev) = false ∧
       pinCount (applyOps [.pinPtr .base 5 7] sampleDev) = 0) :=
  C1_spillable_iff .base (.deviceBuffer 100 [1, 2, 3, 4]) false 0 0
    sampleDev (by rfl) [.pinPtr .base 5 7]

/-- Claim C2: once the exposed flag of a buffer is observed true, no
subsequent sequence of operations (residency moves, pointer accesses,
pinning, token release, slicing, host materialization, serialization) can
make the exposed query return false again. -/
theorem C2_exposed_latch (b : Buffer) (s : BaseState) (ops : List Op)
    (h : exposedQ b s = true) : exposedQ b (applyOps ops s) = true := by
  rw [exposedQ_eq] at h ⊢
  exact applyOps_pred (fun st => st.exposed = true) applyOp_exposed_mono
    ops s h

theorem C2_witness :
    exposedQ .base
      (applyOps [.move "cpu" 0, .dropToken, .hostCopy (.view 1 2)]
        sampleExposedDev) = true :=
  C2_exposed_latch .base sampleExposedDev
    [.move "cpu" 0, .dropToken, .hostCopy (.view 1 2)] (by rfl)

/-- Claim C3: `move_inplace` on an unspillable base buffer (exposed or
pinned) with a target differing from the current residency raises
`Unspillable` and leaves the whole buffer state (residency, contents,
size, last-accessed timestamp) unchanged. -/
theorem C3_move_unspillable (s : BaseState) (target : String) (f : Nat)
    (h1 : s.spillable = false) (h2 : s.ptrType ≠ target) :
    move_inplace s target f = .error .unspillable ∧
    applyOp (.move target f) s = s := by
  have hm := move_inplace_unspillable s target f h1 h2
  refine ⟨hm, ?_⟩
  simp only [applyOp, hm]

theorem C3_witness :
    move_inplace sampleExposedDev "cpu" 0 = .error .unspillable ∧
    applyOp (.move "cpu" 0) sampleExposedDev = sampleExposedDev :=
  C3_move_unspillable sampleExposedDev "cpu" 0 (by decide) (by decide)

/-- Claim C4: a successful `ptr_raw` on an unexposed buffer forces the
base to device residency, mints one pin token (pin count + 1) making the
base unspillable while exposed stays false, and releasing the token
restores the pin count, making the base spillable again when no other
token is live. -/
theorem C4_pin_protocol (b : Buffer) (s : BaseState) (now f : Nat)
    (hexp : exposedQ b s = false) (hu : 1 ≤ s.useCount)
    (addr : Nat) (s1 : BaseState)
    (h : ptr_raw b s now f = .ok (addr, s1)) :
    is_spilled b s1 = false ∧
    exposedQ b s1 = false ∧
    spillableQ b s1 = false ∧
    pinCount s1 = pinCount s + 1 ∧
    pinCount (releasePin s1) = pinCount s ∧
    (pinCount s = 0 → spillableQ b (releasePin s1) = true) := by
  obtain ⟨sm, hmv, hr⟩ := ptr_raw_ok b s now f (addr, s1) h
  have heq : s1 = { sm with lastAccessed := now, useCount := sm.useCount + 1 } :=
    congrArg Prod.snd hr
  have hfield := move_inplace_ok_fields s "gpu" f sm hmv
  have hgpu := move_inplace_ok_ptrType s "gpu" f sm hmv
  rw [exposedQ_eq] at hexp
  have hE : sm.exposed = false := by rw [hfield.1]; exact hexp
  have hU : sm.useCount = s.useCount := hfield.2.1
  subst heq
  refine ⟨?_, ?_, ?_, ?_, ?_, ?_⟩
  · exact is_spilled_false_of_gpu b _ hgpu
  · rw [exposedQ_eq]
    exact hE
  · rw [spillableQ_eq]
    show (!sm.exposed && (sm.useCount + 1 == 1)) = false
    have h5 : (sm.useCount + 1 == 1) = false := by
      simp only [beq_eq_false_iff_ne]
      omega
    rw [h5, Bool.and_false]
  · show sm.useCount + 1 - 1 = pinCount s + 1
    unfold pinCount
    omega
  · unfold releasePin
    split
    · show sm.useCount + 1 - 1 - 1 = pinCount s
      unfold pinCount
      omega
    · next hc =>
        exfalso
        exact hc (by show 2 ≤ sm.useCount + 1; omega)
  · intro hp0
    have h1 : s.useCount = 1 := by unfold pinCount at hp0; omega
    rw [spillableQ_eq]
    unfold releasePin
    split
    · show (!sm.exposed && (sm.useCount + 1 - 1 == 1)) = true
      rw [hE, hU, h1]
      rfl
    · next hc =>
        exfalso
        exact hc (by show 2 ≤ sm.useCount + 1; omega)

theorem C4_witness :
    is_spilled .base samplePinned = false ∧
    exposedQ .base samplePinned = false ∧
    spillableQ .base samplePinned = false ∧
    pinCount samplePinned = pinCount sampleHost + 1 ∧
    pinCount (releasePin samplePinned) = pinCount sampleHost ∧
    (pinCount sampleHost = 0 →
      spillableQ .base (releasePin samplePinned) = true) :=
  C4_pin_protocol .base sampleHost 7 200 (by decide) (by decide)
    200 samplePinned (by rfl)

/-- Claim C5: a view's exposed query equals the base's, its residency
(is_spilled) query equals the base's, and reading the view's pointer
yields the base's resolved device address plus the view's offset (with
the same resulting state). -/
theorem C5_view_delegates (o sz : Nat) (s : BaseState) (now f : Nat) :
    exposedQ (.view o sz) s = exposedQ .base s ∧
    is_spilled (.view o sz) s = is_spilled .base s ∧
    ∀ r : Nat × BaseState, ptrAccess .base s now f = .ok r →
      ptrAccess (.view o sz) s now f = .ok (r.1 + o, r.2) := by
  refine ⟨rfl, rfl, ?_⟩
  intro r h
  obtain ⟨s1, hmv, hr⟩ := ptrAccess_ok .base s now f r h
  unfold ptrAccess
  rw [hmv, hr]
  show Except.ok (s1.ptr + o, _) = Except.ok (s1.ptr + 0 + o, _)
  rw [Nat.add_zero]

theorem C5_witness :
    exposedQ (.view 1 2) sampleHost = exposedQ .base sampleHost ∧
    is_spilled (.view 1 2) sampleHost = is_spilled .base sampleHost ∧
    ptrAccess (.view 1 2) sampleHost 7 200 = .ok (201, sampleMovedExposed) :=
  ⟨(C5_view_delegates 1 2 sampleHost 7 200).1,
   (C5_view_delegates 1 2 sampleHost 7 200).2.1,
   (C5_view_delegates 1 2 sampleHost 7 200).2.2
     (200, sampleMovedExposed) (by rfl)⟩

/-- Claim C6: slicing flattens to the ultimate base: for a 1024-byte base,
slicing [100, 500) and then slicing that view at [50, 150) yields a view
referencing the base directly at absolute offset 150 with size 100. -/
theorem C6_slice_flatten :
    getitem .base sampleBufA 100 500 1 = .ok (.view 100 400) ∧
    getitem (.view 100 400) sampleBufA 50 150 1 = .ok (.view 150 100) :=
  ⟨rfl, rfl⟩

/-- Claim C7: serializing any buffer and deserializing the single payload
frame yields a buffer with identical byte content and size, whether the
buffer was device- or host-resident; deserializing any frame list whose
length is not one fails with the frame-count error. -/
theorem C7_roundtrip (b : Buffer) (s : BaseState)
    (hlen : s.contents.length = s.size)
    (hview : ∀ o sz, b = .view o sz → o + sz ≤ s.size) :
    (∀ hdr frames s1, serialize b s = .ok (hdr, frames, s1) →
       ∃ b2 s2, deserialize hdr frames = .ok (b2, s2) ∧
         bufContents b2 s2 = bufContents b s ∧
         bufSize b2 s2 = bufSize b s) ∧
    (∀ frames : List Frame, frames.length ≠ 1 →
       deserialize frames.length frames = .error .frameCountMismatch) := by
  constructor
  · intro hdr frames s1 h
    unfold serialize at h
    split at h
    · next hsp =>
        rw [is_spilled_eq] at hsp
        have hcpu : ∃ m, s.ptrDesc = .cpu m := by
          cases hd : s.ptrDesc with
          | gpu m =>
              exfalso
              have : s.ptrType = "gpu" := by unfold BaseState.ptrType; rw [hd]
              rw [this] at hsp
              simp at hsp
          | cpu m => exact ⟨m, rfl⟩
        obtain ⟨m, hm'⟩ := hcpu
        have hct : s.ptrType = "cpu" := by unfold BaseState.ptrType; rw [hm']
        have hmv : memoryview b s =
            .ok ((s.contents.drop b.offsetOf).take (bufSize b s), s) ∨
            memoryview b s = .error .assertionFailed := by
          unfold memoryview
          cases hsp2 : s.spillable with
          | false =>
              rw [hm']
              simp [hsp2]
          | true =>
              have hmove : move_inplace s "cpu" 0 = .ok s := by
                unfold move_inplace
                rw [if_pos hct]
              simp [hsp2, hmove]
        rcases hmv with hmv | hmv
        · rw [hmv] at h
          cases h
          refine ⟨.base, _, rfl, ?_, ?_⟩
          · show (s.contents.drop b.offsetOf).take (bufSize b s) = bufContents b s
            cases b with
            | base =>
                show (s.contents.drop 0).take s.size = s.contents
                rw [List.drop_zero, ← hlen, List.take_length]
            | view o sz => rfl
          · show ((s.contents.drop b.offsetOf).take (bufSize b s)).length = bufSize b s
            rw [List.length_take, List.length_drop]
            cases b with
            | base =>
                show min s.size (s.contents.length - 0) = s.size
                omega
            | view o sz =>
                have := hview o sz rfl
                show min sz (s.contents.length - o) = sz
                omega
        · rw [hmv] at h
          cases h
    · cases h
      exact ⟨b, s, rfl, rfl, rfl⟩
  · intro frames hne
    unfold deserialize
    rw [if_pos hne]

theorem C7_witness :
    (∃ b2 s2, deserialize 1 [Frame.hostBytes [5, 6, 7]] = .ok (b2, s2) ∧
       bufContents b2 s2 = bufContents .base sampleHost ∧
       bufSize b2 s2 = bufSize .base sampleHost) ∧
    deserialize 2 [Frame.hostBytes [], Frame.hostBytes []] =
      .error .frameCountMismatch := by
  have hc := C7_roundtrip .base sampleHost (by decide)
    (fun o sz hv => by cases hv)
  exact ⟨hc.1 1 [Frame.hostBytes [5, 6, 7]] sampleHost (by rfl),
         hc.2 [Frame.hostBytes [], Frame.hostBytes []] (by decide)⟩

/-- Claim C8: constructing a buffer with exposed=true from a host source
(contiguous or not) succeeds by eagerly copying to a fresh device
allocation; the result is device-resident and reports exposed=false. -/
theorem C8_exposed_host_copy (mem : List Nat) (contig : Bool)
    (fp now : Nat) :
    ∃ s, init (.host mem contig) true fp now = .ok s ∧
      is_spilled .base s = false ∧
      exposedQ .base s = false ∧
      s.contents = mem ∧
      s.ptr = fp ∧
      s.size = mem.length := by
  exact ⟨_, rfl, rfl, rfl, rfl, rfl, rfl⟩

/-- Claim C9: host materialization on a buffer whose base is not spillable
(exposed or pinned) and device-resident returns a fresh host copy of the
bytes in [offset, offset+size) and leaves the base state (residency,
device address, device contents) entirely unchanged. -/
theorem C9_memoryview_no_move (b : Buffer) (s : BaseState)
    (devMem : List Nat) (h1 : s.spillable = false)
    (h2 : s.ptrDesc = .gpu devMem) :
    memoryview b s =
      .ok ((devMem.drop b.offsetOf).take (bufSize b s), s) := by
  unfold memoryview
  rw [h1, h2]
  rfl

theorem C9_witness :
    memoryview (.view 1 2) sampleExposedDev =
      .ok ([2, 3], sampleExposedDev) :=
  C9_memoryview_no_move (.view 1 2) sampleExposedDev [1, 2, 3, 4]
    (by decide) (by rfl)

/-- Claim C10: every reachable buffer state with the exposed flag set is
device-resident: starting from any successful construction, after any
sequence of operations, if the exposed query is true then the is_spilled
query is false. -/
theorem C10_exposed_device_resident (b : Buffer) (data : DataSource)
    (e : Bool) (fp now : Nat) (s0 : BaseState)
    (h0 : init data e fp now = .ok s0) (ops : List Op)
    (hexp : exposedQ b (applyOps ops s0) = true) :
    is_spilled b (applyOps ops s0) = false := by
  have hInv := applyOps_pred
    (fun st => st.exposed = true → st.ptrType = "gpu")
    applyOp_exposed_gpu ops s0 (init_exposed_gpu data e fp now s0 h0)
  rw [exposedQ_eq] at hexp
  exact is_spilled_false_of_gpu b _ (hInv hexp)

theorem C10_witness :
    is_spilled .base
      (applyOps [.getPtr .base 3 200, .move "cpu" 0] sampleHost) = false :=
  C10_exposed_device_resident .base (.host [5, 6, 7] true) false 0 0
    sampleHost (by rfl) [.getPtr .base 3 200, .move "cpu" 0] (by rfl)

end SpillBuf
